import Mathlib

/-!
Verification development for the js-angusj-clipper wrapper
(src/src/lib2/index.ts).

The loader loadNativeClipperLibInstanceAsync (src lines 441-532) is embedded
as a state-passing function over the two module-level slots wasmModule and
asmJsModule (src lines 45-46).  The outcome of a fresh native initialization
attempt (the awaited getModuleAsync) is an environment parameter, and the
list of formats natively initialized during a call is recorded.  JavaScript
object identity of the wrappers built by new ClipperLibWrapper(...) is
modelled with a fresh allocation id threaded through the call.
-/

namespace Clipper

/-- A JavaScript error value: a ClipperError with a message, or an error
delivered by the native runtime (modelled with a numeric code). -/
inductive JsError where
  | clipper (msg : String)
  | native (code : Nat)
deriving DecidableEq, Repr

/-- src line 45: a module-level slot is undefined, a loaded native instance
(an opaque handle, modelled as a number), or a stored error. -/
inductive ModuleSlot where
  | undef
  | inst (h : Nat)
  | err (e : JsError)
deriving DecidableEq, Repr

/-- The two module-level slots of src lines 45-46: the mutable state the
loader reads and writes. -/
structure LoaderState where
  wasmModule : ModuleSlot
  asmJsModule : ModuleSlot
deriving DecidableEq, Repr

/-- src lines 60-63: enum NativeClipperLibLoadedFormat. -/
inductive LoadedFormat where
  | wasm
  | asmJs
deriving DecidableEq, Repr

/-- src lines 68-93: the wrapper object built by new ClipperLibWrapper(inst,
format).  allocId models JavaScript object identity: every evaluation of new
yields a fresh object. -/
structure ClipperLibWrapper where
  allocId : Nat
  inst : Nat
  format : LoadedFormat
deriving DecidableEq, Repr

/-- Outcome of a fresh native initialization attempt (the awaited
getModuleAsync of src lines 462-489) for each format: the resolved instance
handle, or the rejection error delivered through the quit hook. -/
structure LoadEnv where
  wasmInit : Except JsError Nat
  asmJsInit : Except JsError Nat
deriving Repr

/-- A call to the loader either returns a wrapper or throws. -/
inductive LoadResult where
  | ok (w : ClipperLibWrapper)
  | thrown (e : JsError)
deriving DecidableEq, Repr

/-- Everything one call to the loader produces: its result, the slots after
the call, the formats natively initialized during the call (in order), and
the next fresh allocation id. -/
structure LoadOutcome where
  result : LoadResult
  state : LoaderState
  inits : List LoadedFormat
  nextAlloc : Nat
deriving DecidableEq, Repr

/-- src line 52: the string value of WasmWithAsmJsFallback. -/
def fallbackFormatStr : String := "wasmWithAsmJsFallback"

/-- src line 53: the string value of WasmOnly. -/
def wasmOnlyFormatStr : String := "wasmOnly"

/-- src line 54: the string value of AsmJsOnly. -/
def asmJsOnlyFormatStr : String := "asmJsOnly"

/-- src line 459: message of the error thrown for an unrecognized format. -/
def unknownFormatMsg : String := "unknown native clipper format"

/-- src line 531: message of the error thrown when every applicable format is
exhausted. -/
def couldNotLoadMsg : String := "could not load native clipper in the desired format"

/-- src lines 511-529: the asm.js block.  Entered with the state and the init
list left by the wasm block; falls through to the throw of src line 531 when
the slot holds an error or a fresh attempt fails. -/
def asmJsPhase (env : LoadEnv) (st : LoaderState) (alloc : Nat)
    (inits : List LoadedFormat) : LoadOutcome :=
  match st.asmJsModule with
  | .err _ => ⟨.thrown (.clipper couldNotLoadMsg), st, inits, alloc⟩
  | .undef =>
    match env.asmJsInit with
    | .ok h =>
      ⟨.ok ⟨alloc, h, .asmJs⟩, { st with asmJsModule := .inst h },
        inits ++ [.asmJs], alloc + 1⟩
    | .error e =>
      ⟨.thrown (.clipper couldNotLoadMsg), { st with asmJsModule := .err e },
        inits ++ [.asmJs], alloc⟩
  | .inst h => ⟨.ok ⟨alloc, h, .asmJs⟩, st, inits, alloc + 1⟩

/-- src lines 491-509: the wasm block, run without interleaving.  Yields some
outcome when the block returns, or none together with the updated state and
the formats initialized so far when control falls through. -/
def wasmPhase (env : LoadEnv) (st : LoaderState) (alloc : Nat) :
    Option LoadOutcome × LoaderState × List LoadedFormat :=
  match st.wasmModule with
  | .err _ => (none, st, [])
  | .undef =>
    match env.wasmInit with
    | .ok h =>
      (some ⟨.ok ⟨alloc, h, .wasm⟩, { st with wasmModule := .inst h },
        [.wasm], alloc + 1⟩, { st with wasmModule := .inst h }, [.wasm])
    | .error e => (none, { st with wasmModule := .err e }, [.wasm])
  | .inst h => (some ⟨.ok ⟨alloc, h, .wasm⟩, st, [], alloc + 1⟩, st, [])

/-- src lines 441-532: loadNativeClipperLibInstanceAsync run to completion
with no interleaving.  The switch of src lines 445-460 fixes the tryWasm and
tryAsmJs flags; the wasm block runs when tryWasm holds, the asm.js block when
tryAsmJs holds and the wasm block fell through, and src line 531 throws
otherwise. -/
def loadNativeClipperLibInstanceAsync (format : String) (env : LoadEnv)
    (st : LoaderState) (alloc : Nat) : LoadOutcome :=
  if format = fallbackFormatStr then
    match wasmPhase env st alloc with
    | (some out, _, _) => out
    | (none, st1, inits1) => asmJsPhase env st1 alloc inits1
  else if format = wasmOnlyFormatStr then
    match wasmPhase env st alloc with
    | (some out, _, _) => out
    | (none, st1, inits1) =>
      ⟨.thrown (.clipper couldNotLoadMsg), st1, inits1, alloc⟩
  else if format = asmJsOnlyFormatStr then
    asmJsPhase env st alloc []
  else
    ⟨.thrown (.clipper unknownFormatMsg), st, [], alloc⟩

/-- The cached slot a loaded format lives in. -/
def slotOf : LoadedFormat → LoaderState → ModuleSlot
  | .wasm, st => st.wasmModule
  | .asmJs, st => st.asmJsModule

/-- The single-format request string of a format. -/
def onlyFormatStr : LoadedFormat → String
  | .wasm => wasmOnlyFormatStr
  | .asmJs => asmJsOnlyFormatStr

/-- C5: for a requested format value that is none of the three recognized
strings, the loader throws the unknown-format configuration error before any
loading attempt: no native initialization is performed and neither cached
slot is modified. -/
theorem unknown_format_rejected_before_loading (s : String) (env : LoadEnv)
    (st : LoaderState) (alloc : Nat)
    (h1 : s ≠ fallbackFormatStr) (h2 : s ≠ wasmOnlyFormatStr)
    (h3 : s ≠ asmJsOnlyFormatStr) :
    loadNativeClipperLibInstanceAsync s env st alloc
      = ⟨.thrown (.clipper unknownFormatMsg), st, [], alloc⟩ := by
  simp [loadNativeClipperLibInstanceAsync, h1, h2, h3]

/-- Environment with both initialization attempts succeeding. -/
def envW : LoadEnv := ⟨.ok 7, .ok 9⟩

/-- Fresh loader state: both slots undefined. -/
def stFresh : LoaderState := ⟨.undef, .undef⟩

/-- A format string outside the recognized enumeration. -/
def bogusFormatStr : String := "svg"

/-- C5 witness: a concrete unrecognized format string is rejected with the
unknown-format error and the fresh state is untouched. -/
theorem unknown_format_rejected_before_loading_witness :
    loadNativeClipperLibInstanceAsync bogusFormatStr envW stFresh 0
      = ⟨.thrown (.clipper unknownFormatMsg), stFresh, [], 0⟩ :=
  unknown_format_rejected_before_loading bogusFormatStr envW stFresh 0
    (by decide) (by decide) (by decide)

/-- C2: once a format is cached as loaded, a call requesting that format
returns a wrapper around the cached handle, performs no native initialization
and leaves the state untouched; when wasm is the cached format the fallback
mode returns the same cached wasm handle. -/
theorem cached_format_returns_cached_handle (F : LoadedFormat) (env : LoadEnv)
    (st : LoaderState) (alloc h : Nat) (hc : slotOf F st = .inst h) :
    loadNativeClipperLibInstanceAsync (onlyFormatStr F) env st alloc
        = ⟨.ok ⟨alloc, h, F⟩, st, [], alloc + 1⟩ ∧
      (st.wasmModule = .inst h →
        loadNativeClipperLibInstanceAsync fallbackFormatStr env st alloc
          = ⟨.ok ⟨alloc, h, .wasm⟩, st, [], alloc + 1⟩) := by
  cases F <;>
    simp only [slotOf] at hc <;>
    refine ⟨?_, fun hw => ?_⟩ <;>
    first
      | simp [loadNativeClipperLibInstanceAsync, onlyFormatStr, wasmPhase,
          asmJsPhase, fallbackFormatStr, wasmOnlyFormatStr, asmJsOnlyFormatStr,
          hc, hw]
      | simp [loadNativeClipperLibInstanceAsync, onlyFormatStr, wasmPhase,
          asmJsPhase, fallbackFormatStr, wasmOnlyFormatStr, asmJsOnlyFormatStr,
          hc]

/-- Loader state with wasm cached as instance 5 and asm.js untouched. -/
def stWasmLoaded : LoaderState := ⟨.inst 5, .undef⟩

/-- C2 witness: with wasm cached as instance 5, a wasmOnly request returns a
wrapper around handle 5 with no initialization and an unchanged state. -/
theorem cached_format_returns_cached_handle_witness :
    loadNativeClipperLibInstanceAsync (onlyFormatStr .wasm) envW stWasmLoaded 0
      = ⟨.ok ⟨0, 5, .wasm⟩, stWasmLoaded, [], 1⟩ :=
  (cached_format_returns_cached_handle .wasm envW stWasmLoaded 0 5 rfl).1

/-- C3: attempt order and per-format independence.  A wasmOnly request
initializes at most wasm and leaves the asm.js slot untouched; an asmJsOnly
request initializes at most asm.js and leaves the wasm slot untouched; the
fallback mode initializes wasm before asm.js and reaches asm.js only when the
cached wasm slot holds an error or the wasm attempt of this call fails; and a
request for one format reads and writes only the slot of that format, so its
behavior is unaffected by the cached outcome of the other format. -/
theorem format_order_and_independence (env : LoadEnv) (st : LoaderState)
    (alloc : Nat) :
    ((loadNativeClipperLibInstanceAsync wasmOnlyFormatStr env st alloc).inits = []
       ∨ (loadNativeClipperLibInstanceAsync wasmOnlyFormatStr env st alloc).inits
         = [.wasm]) ∧
    (loadNativeClipperLibInstanceAsync wasmOnlyFormatStr env st alloc).state.asmJsModule
      = st.asmJsModule ∧
    ((loadNativeClipperLibInstanceAsync asmJsOnlyFormatStr env st alloc).inits = []
       ∨ (loadNativeClipperLibInstanceAsync asmJsOnlyFormatStr env st alloc).inits
         = [.asmJs]) ∧
    (loadNativeClipperLibInstanceAsync asmJsOnlyFormatStr env st alloc).state.wasmModule
      = st.wasmModule ∧
    ((loadNativeClipperLibInstanceAsync fallbackFormatStr env st alloc).inits = []
       ∨ (loadNativeClipperLibInstanceAsync fallbackFormatStr env st alloc).inits
         = [.wasm]
       ∨ (loadNativeClipperLibInstanceAsync fallbackFormatStr env st alloc).inits
         = [.asmJs]
       ∨ (loadNativeClipperLibInstanceAsync fallbackFormatStr env st alloc).inits
         = [.wasm, .asmJs]) ∧
    (.asmJs ∈ (loadNativeClipperLibInstanceAsync fallbackFormatStr env st alloc).inits →
       (∃ e, st.wasmModule = .err e) ∨
         (.wasm ∈ (loadNativeClipperLibInstanceAsync fallbackFormatStr env st alloc).inits
           ∧ ∃ e, env.wasmInit = .error e)) ∧
    (∀ w, loadNativeClipperLibInstanceAsync asmJsOnlyFormatStr env
        ⟨w, st.asmJsModule⟩ alloc
      = ⟨(loadNativeClipperLibInstanceAsync asmJsOnlyFormatStr env st alloc).result,
         ⟨w, (loadNativeClipperLibInstanceAsync asmJsOnlyFormatStr env st
             alloc).state.asmJsModule⟩,
         (loadNativeClipperLibInstanceAsync asmJsOnlyFormatStr env st alloc).inits,
         (loadNativeClipperLibInstanceAsync asmJsOnlyFormatStr env st
           alloc).nextAlloc⟩) ∧
    (∀ a, loadNativeClipperLibInstanceAsync wasmOnlyFormatStr env
        ⟨st.wasmModule, a⟩ alloc
      = ⟨(loadNativeClipperLibInstanceAsync wasmOnlyFormatStr env st alloc).result,
         ⟨(loadNativeClipperLibInstanceAsync wasmOnlyFormatStr env st
             alloc).state.wasmModule, a⟩,
         (loadNativeClipperLibInstanceAsync wasmOnlyFormatStr env st alloc).inits,
         (loadNativeClipperLibInstanceAsync wasmOnlyFormatStr env st
           alloc).nextAlloc⟩) := by
  obtain ⟨wm, am⟩ := st
  cases wm <;> cases am <;>
    cases hwi : env.wasmInit <;> cases hai : env.asmJsInit <;>
    simp [loadNativeClipperLibInstanceAsync, wasmPhase, asmJsPhase,
      fallbackFormatStr, wasmOnlyFormatStr, asmJsOnlyFormatStr, hwi, hai]

/-- Cached state in which both formats have already failed. -/
def stBothFailed : LoaderState := ⟨.err (.native 7), .err (.native 8)⟩

/-- Environment in which both fresh initialization attempts fail. -/
def envFail : LoadEnv := ⟨.error (.native 7), .error (.native 9)⟩

/-- C4 counterexample: with the wasm slot cached as failed with native error 7
(so the underlying cause is available from the failing format), a wasmOnly
request throws the generic could-not-load ClipperError, which does not carry
the cached cause. -/
theorem load_failure_does_not_carry_cause :
    (loadNativeClipperLibInstanceAsync wasmOnlyFormatStr envFail stBothFailed 0).result
        = .thrown (.clipper couldNotLoadMsg) ∧
      JsError.clipper couldNotLoadMsg ≠ JsError.native 7 := by
  exact ⟨rfl, by decide⟩

/-- C4 amended: when every format applicable to the requested mode is cached
as failed, the loader throws the generic could-not-load ClipperError (the
cached underlying cause is recorded but not attached), performs no native
initialization and leaves the cached errors in place, so a failed format is
never retried. -/
theorem all_formats_failed_generic_error (env : LoadEnv) (st : LoaderState)
    (alloc : Nat) :
    (∀ e, st.wasmModule = .err e →
       loadNativeClipperLibInstanceAsync wasmOnlyFormatStr env st alloc
         = ⟨.thrown (.clipper couldNotLoadMsg), st, [], alloc⟩) ∧
    (∀ e, st.asmJsModule = .err e →
       loadNativeClipperLibInstanceAsync asmJsOnlyFormatStr env st alloc
         = ⟨.thrown (.clipper couldNotLoadMsg), st, [], alloc⟩) ∧
    (∀ e1 e2, st.wasmModule = .err e1 → st.asmJsModule = .err e2 →
       loadNativeClipperLibInstanceAsync fallbackFormatStr env st alloc
         = ⟨.thrown (.clipper couldNotLoadMsg), st, [], alloc⟩) := by
  obtain ⟨wm, am⟩ := st
  refine ⟨fun e he => ?_, fun e he => ?_, fun e1 e2 h1 h2 => ?_⟩ <;>
    simp_all [loadNativeClipperLibInstanceAsync, wasmPhase, asmJsPhase,
      fallbackFormatStr, wasmOnlyFormatStr, asmJsOnlyFormatStr]

/-- C4 witness: at the concrete all-failed state, the wasmOnly request throws
the generic error, does not retry, and leaves the cached errors in place. -/
theorem all_formats_failed_generic_error_witness :
    loadNativeClipperLibInstanceAsync wasmOnlyFormatStr envFail stBothFailed 0
      = ⟨.thrown (.clipper couldNotLoadMsg), stBothFailed, [], 0⟩ :=
  (all_formats_failed_generic_error envFail stBothFailed 0).1 (.native 7) rfl

/-- The fresh initialization outcome of the environment for a format. -/
def initOf : LoadedFormat → LoadEnv → Except JsError Nat
  | .wasm, env => env.wasmInit
  | .asmJs, env => env.asmJsInit

/-- C10: a successful load constructs a fresh wrapper object on every call
while only the native instance is memoized: from an unattempted slot, a first
single-format call initializes the format once and returns a wrapper around
the new handle; the immediately following call for the same format performs
no initialization and returns a distinct wrapper object around the same
cached handle, both wrappers naming the format that backed the load. -/
theorem successful_loads_return_fresh_wrappers (F : LoadedFormat)
    (env : LoadEnv) (st : LoaderState) (alloc h : Nat)
    (hu : slotOf F st = .undef) (he : initOf F env = .ok h) :
    (loadNativeClipperLibInstanceAsync (onlyFormatStr F) env st alloc).result
        = .ok ⟨alloc, h, F⟩ ∧
      (loadNativeClipperLibInstanceAsync (onlyFormatStr F) env st alloc).inits
        = [F] ∧
      (loadNativeClipperLibInstanceAsync (onlyFormatStr F) env
          (loadNativeClipperLibInstanceAsync (onlyFormatStr F) env st alloc).state
          (loadNativeClipperLibInstanceAsync (onlyFormatStr F) env st
            alloc).nextAlloc).result
        = .ok ⟨alloc + 1, h, F⟩ ∧
      (loadNativeClipperLibInstanceAsync (onlyFormatStr F) env
          (loadNativeClipperLibInstanceAsync (onlyFormatStr F) env st alloc).state
          (loadNativeClipperLibInstanceAsync (onlyFormatStr F) env st
            alloc).nextAlloc).inits
        = [] ∧
      (⟨alloc, h, F⟩ : ClipperLibWrapper) ≠ ⟨alloc + 1, h, F⟩ ∧
      (⟨alloc, h, F⟩ : ClipperLibWrapper).inst
        = (⟨alloc + 1, h, F⟩ : ClipperLibWrapper).inst ∧
      (⟨alloc, h, F⟩ : ClipperLibWrapper).format = F := by
  cases F <;> obtain ⟨wm, am⟩ := st <;>
    simp only [slotOf] at hu <;> simp only [initOf] at he <;> subst hu <;>
    simp [loadNativeClipperLibInstanceAsync, onlyFormatStr, wasmPhase,
      asmJsPhase, fallbackFormatStr, wasmOnlyFormatStr, asmJsOnlyFormatStr, he]

/-- C10 witness: from the fresh state, the first wasmOnly call returns a
wrapper with allocation id 0 around the newly loaded handle 7. -/
theorem successful_loads_return_fresh_wrappers_witness :
    (loadNativeClipperLibInstanceAsync (onlyFormatStr .wasm) envW stFresh 0).result
      = .ok ⟨0, 7, .wasm⟩ :=
  (successful_loads_return_fresh_wrappers .wasm envW stFresh 0 7 rfl rfl).1

/-- Phase of one in-flight call to the loader for the wasm format under mode
wasmOnly, with the single suspension point of the call at the await of src
line 498: start is before the synchronous check of the slot, awaitingInit is
suspended inside the await holding the index of the initialization attempt it
started, and done holds the settled result. -/
inductive CallPhase where
  | start
  | awaitingInit (attempt : Nat)
  | done (r : LoadResult)
deriving DecidableEq, Repr

/-- Shared state of the interleaved execution of several wasmOnly calls: the
module-level wasm slot, the phase of each call, the number of native
initializations started so far, and the next fresh wrapper allocation id. -/
structure ConcState where
  wasmModule : ModuleSlot
  calls : List CallPhase
  initCount : Nat
  nextAlloc : Nat
deriving DecidableEq, Repr

/-- One scheduler step of call i, mirroring src lines 491-509 for mode
wasmOnly under the cooperative JavaScript execution model: from start, the
call synchronously checks the slot (it settles with the generic throw on a
cached error and with a fresh wrapper on a cached instance), and on an
undefined slot it starts a native initialization and suspends at the await
while the slot still holds undefined; on resumption the outcome of its
attempt (the oracle at the attempt index) is written to the slot and the
call settles. -/
def stepCall (oracle : Nat → Except JsError Nat) (s : ConcState) (i : Nat) :
    ConcState :=
  match s.calls.get? i with
  | none => s
  | some .start =>
    match s.wasmModule with
    | .err _ =>
      { s with calls := s.calls.set i (.done (.thrown (.clipper couldNotLoadMsg))) }
    | .inst h =>
      { s with calls := s.calls.set i (.done (.ok ⟨s.nextAlloc, h, .wasm⟩)),
               nextAlloc := s.nextAlloc + 1 }
    | .undef =>
      { s with calls := s.calls.set i (.awaitingInit s.initCount),
               initCount := s.initCount + 1 }
  | some (.awaitingInit k) =>
    match oracle k with
    | .ok h =>
      { s with wasmModule := .inst h,
               calls := s.calls.set i (.done (.ok ⟨s.nextAlloc, h, .wasm⟩)),
               nextAlloc := s.nextAlloc + 1 }
    | .error e =>
      { s with wasmModule := .err e,
               calls := s.calls.set i (.done (.thrown (.clipper couldNotLoadMsg))) }
  | some (.done _) => s

/-- Run the interleaved calls under a schedule, one step per entry. -/
def runSched (oracle : Nat → Except JsError Nat) :
    ConcState → List Nat → ConcState
  | s, [] => s
  | s, i :: rest => runSched oracle (stepCall oracle s i) rest

/-- Attempt oracle under which the k-th native initialization resolves with
handle 100 + k: distinct attempts yield distinct native instances. -/
def freshHandles : Nat → Except JsError Nat := fun k => .ok (100 + k)

/-- Two overlapping wasmOnly calls against a fresh wasm slot. -/
def twoCallsStart : ConcState := ⟨.undef, [.start, .start], 0, 0⟩

/-- C1 (code bug): interleaving two overlapping wasmOnly calls so that both
pass the undefined check before either initialization resolves starts two
native initializations, and the two callers settle with wrappers around the
distinct handles 100 and 101: the single initialization and shared result the
claim demands fail on this schedule, because the slot is not marked as
loading while the await of src line 498 is pending. -/
theorem overlapping_loads_duplicate_initialization :
    (runSched freshHandles twoCallsStart [0, 1, 0, 1]).initCount = 2 ∧
      (runSched freshHandles twoCallsStart [0, 1, 0, 1]).calls
        = [.done (.ok ⟨0, 100, .wasm⟩), .done (.ok ⟨1, 101, .wasm⟩)] ∧
      (ClipperLibWrapper.mk 0 100 .wasm).inst
        ≠ (ClipperLibWrapper.mk 1 101 .wasm).inst := by
  refine ⟨rfl, rfl, by decide⟩

/-- A point of the integer coordinate space (src IntPoint). -/
abbrev IntPoint := ℤ × ℤ

/-- Modelled from the spec: the file src/lib2/functions.ts implementing the
local geometry utilities is not under src/ (only the delegating wrapper
methods of src/src/lib2/index.ts lines 204-206 and 366-368 are).  Per the
spec, area is a local direct sum over consecutive-vertex cross products of
the closed path; this is the cross product of one directed edge. -/
def cross (a b : IntPoint) : ℤ := a.1 * b.2 - b.1 * a.2

/-- Sum of the cross products of the consecutive vertex pairs of a path (the
open part of the shoelace sum). -/
def linSum : List IntPoint → ℤ
  | [] => 0
  | [_] => 0
  | a :: b :: rest => cross a b + linSum (b :: rest)

/-- Cross product of the closing edge, from the last vertex back to the
first; zero for a path without an edge. -/
def closeTerm (l : List IntPoint) : ℤ :=
  match l.head?, l.getLast? with
  | some p, some q => cross q p
  | _, _ => 0

/-- Twice the signed area of a closed path: the full cyclic shoelace sum. -/
def area2 (l : List IntPoint) : ℤ := linSum l + closeTerm l

/-- Modelled from the spec: the signed area of a closed path, the halved
cyclic sum over consecutive-vertex cross products. -/
def area (l : List IntPoint) : ℚ := (area2 l : ℚ) / 2

/-- Modelled from the spec: reversePath reverses the vertex order of the
path (the in-place mutation is modelled by returning the reversed list). -/
def reversePath (l : List IntPoint) : List IntPoint := l.reverse

/-- Cross product of the edge from the last vertex of a path to a new
vertex; zero when the path is empty. -/
def lastCross (l : List IntPoint) (x : IntPoint) : ℤ :=
  match l.getLast? with
  | none => 0
  | some y => cross y x

/-- The last vertex of a path with at least two vertices is the last vertex
of its tail. -/
theorem lastCross_cons_cons (a b : IntPoint) (l : List IntPoint)
    (x : IntPoint) : lastCross (a :: b :: l) x = lastCross (b :: l) x := by
  unfold lastCross
  rw [List.getLast?_cons_cons]

/-- Appending one vertex extends the open shoelace sum by the cross product
of the new final edge. -/
theorem linSum_concat (l : List IntPoint) (x : IntPoint) :
    linSum (l ++ [x]) = linSum l + lastCross l x := by
  induction l with
  | nil => simp [linSum, lastCross]
  | cons a l ih =>
    cases l with
    | nil => simp [linSum, lastCross]
    | cons b l2 =>
      have h1 : linSum ((a :: b :: l2) ++ [x])
          = cross a b + linSum ((b :: l2) ++ [x]) := rfl
      have h2 : linSum (a :: b :: l2) = cross a b + linSum (b :: l2) := rfl
      rw [h1, ih, h2, lastCross_cons_cons]
      ring

/-- Reversal negates the open shoelace sum. -/
theorem linSum_reverse (l : List IntPoint) : linSum l.reverse = - linSum l := by
  induction l with
  | nil => simp [linSum]
  | cons a l ih =>
    rw [List.reverse_cons, linSum_concat, ih]
    unfold lastCross
    rw [List.getLast?_reverse]
    cases l with
    | nil => simp [linSum]
    | cons b l2 =>
      have h2 : linSum (a :: b :: l2) = cross a b + linSum (b :: l2) := rfl
      rw [h2]
      simp only [List.head?_cons]
      unfold cross
      ring

/-- Reversal negates the closing edge term. -/
theorem closeTerm_reverse (l : List IntPoint) :
    closeTerm l.reverse = - closeTerm l := by
  unfold closeTerm
  rw [List.head?_reverse, List.getLast?_reverse]
  cases hh : l.head? <;> cases hg : l.getLast? <;> simp [cross]

/-- Reversal negates twice the signed area. -/
theorem area2_reverse (l : List IntPoint) : area2 l.reverse = - area2 l := by
  unfold area2
  rw [linSum_reverse, closeTerm_reverse]
  ring

/-- C8: the signed area of the reversal of a path is the negation of the
signed area of the path. -/
theorem area_reverse_neg (l : List IntPoint) :
    area (reversePath l) = - area l := by
  unfold area reversePath
  rw [area2_reverse]
  push_cast
  ring

/-- src lines 224 and 244: the default value of the distance parameter of
cleanPolygon and cleanPolygons, written 1.1415 in the source. -/
def cleanPolygonDefaultDistance : ℚ := 11415 / 10000

/-- Modelled from the spec: the kernel-backed cleaning (the native clipper
module, not under src/) removes a vertex that is within the given distance of
an adjacent or semi-adjacent vertex; the proximity test compares the squared
coordinate distance against the squared threshold. -/
def pointsAreClose (a b : IntPoint) (d : ℚ) : Bool :=
  decide (((a.1 : ℚ) - b.1) ^ 2 + ((a.2 : ℚ) - b.2) ^ 2 ≤ d ^ 2)

/-- C6 (code bug): the default distance written in the source is 1.1415, not
approximately the square root of two: its square is below 2, so adjacent
vertices whose x and y coordinates each differ by one unit (squared distance
exactly 2) are not within the default threshold, while a value of
approximately the square root of two such as 1.415 would capture them. -/
theorem default_clean_distance_below_sqrt_two :
    cleanPolygonDefaultDistance ^ 2 < 2 ∧
      pointsAreClose (0, 0) (1, 1) cleanPolygonDefaultDistance = false ∧
      pointsAreClose (0, 0) (1, 1) (1415 / 1000 : ℚ) = true := by
  refine ⟨by norm_num [cleanPolygonDefaultDistance], ?_, ?_⟩ <;>
    simp [pointsAreClose, cleanPolygonDefaultDistance] <;> norm_num

/-- Modelled from the spec: one subject input of a clip operation, a set of
paths together with the flag saying whether they are closed polygons or open
polylines (the file src/lib2/clipFunctions.ts is not under src/, only the
delegating wrapper methods of src/src/lib2/index.ts lines 120-122 and 149-151
are). -/
structure SubjectInput where
  paths : List (List IntPoint)
  closed : Bool
deriving DecidableEq, Repr

/-- Modelled from the spec: the data of a clip operation, subject inputs and
clip inputs. -/
structure ClipData where
  subjectInputs : List SubjectInput
  clipInputs : List (List IntPoint)
deriving DecidableEq, Repr

/-- Error taxonomy entry raised by the facade for a violated precondition. -/
inductive FacadeError where
  | usagePrecondition (msg : String)
deriving DecidableEq, Repr

/-- Outcome of the native clip or offset execution delivering flat paths. -/
inductive KernelOutcome where
  | succeeded (solution : List (List IntPoint))
  | failed
deriving DecidableEq, Repr

/-- Message of the usage-precondition error for open subject paths with a
flat Paths solution. -/
def openPathsMsg : String := "open paths require a PolyTree solution"

/-- Modelled from the spec: clipToPaths rejects any clip request whose
subject set contains an open path with a usage-precondition error (reported,
not silently downgraded); otherwise it returns the native solution, or
undefined (none) when the native execution fails. -/
def clipToPaths (data : ClipData) (kernel : KernelOutcome) :
    Except FacadeError (Option (List (List IntPoint))) :=
  if data.subjectInputs.any (fun si => !si.closed) then
    .error (.usagePrecondition openPathsMsg)
  else
    match kernel with
    | .succeeded sol => .ok (some sol)
    | .failed => .ok none

/-- A result node of a clip with tree output: its contour, its open flag and
its children (src PolyNode). -/
inductive PolyNode where
  | node (contour : List IntPoint) (isOpen : Bool) (children : List PolyNode)

/-- The root children of a result tree (src PolyTree). -/
abbrev PolyTree := List PolyNode

/-- Outcome of the native clip or offset execution delivering a tree. -/
inductive KernelTreeOutcome where
  | succeeded (solution : PolyTree)
  | failed

/-- Modelled from the spec: clipToPolyTree accepts open subject paths (the
tree form represents open-ness) and returns the native solution, or undefined
(none) when the native execution fails. -/
def clipToPolyTree (_data : ClipData) (kernel : KernelTreeOutcome) :
    Except FacadeError (Option PolyTree) :=
  match kernel with
  | .succeeded t => .ok (some t)
  | .failed => .ok none

/-- Modelled from the spec: the data of an offset operation (the file
src/lib2/offsetFunctions.ts is not under src/). -/
structure OffsetData where
  offsetInputs : List (List IntPoint)
  delta : ℚ
deriving Repr

/-- Modelled from the spec: offsetToPaths returns the native solution, or
undefined (none) when the native execution fails (src line 154: returning the
resulting Paths or undefined if failed). -/
def offsetToPaths (_data : OffsetData) (kernel : KernelOutcome) :
    Except FacadeError (Option (List (List IntPoint))) :=
  match kernel with
  | .succeeded sol => .ok (some sol)
  | .failed => .ok none

/-- Modelled from the spec: offsetToPolyTree returns the native solution, or
undefined (none) when the native execution fails. -/
def offsetToPolyTree (_data : OffsetData) (kernel : KernelTreeOutcome) :
    Except FacadeError (Option PolyTree) :=
  match kernel with
  | .succeeded t => .ok (some t)
  | .failed => .ok none

/-- C7: a clip request for the flat Paths form whose subject set contains an
open path fails with the usage-precondition error whatever the kernel would
return; it never produces a result value, truncated or otherwise. -/
theorem clip_open_subject_usage_error (data : ClipData)
    (kernel : KernelOutcome)
    (hopen : data.subjectInputs.any (fun si => !si.closed) = true) :
    clipToPaths data kernel = .error (.usagePrecondition openPathsMsg) ∧
      ∀ r, clipToPaths data kernel ≠ .ok r := by
  refine ⟨?_, ?_⟩ <;> simp [clipToPaths, hopen]

/-- A clip data set whose single subject input is an open polyline. -/
def openSubjectData : ClipData :=
  ⟨[⟨[[(0, 0), (10, 0), (10, 10)]], false⟩], []⟩

/-- C7 witness: the concrete request with an open subject polyline fails with
the usage-precondition error even though the kernel would have succeeded. -/
theorem clip_open_subject_usage_error_witness :
    clipToPaths openSubjectData (.succeeded [])
      = .error (.usagePrecondition openPathsMsg) :=
  (clip_open_subject_usage_error openSubjectData (.succeeded []) rfl).1

/-- A clip data set whose subject inputs are all closed. -/
def closedSubjectData : ClipData :=
  ⟨[⟨[[(0, 0), (10, 0), (10, 10), (0, 10)]], true⟩],
    [[(5, 5), (15, 5), (15, 15), (5, 15)]]⟩

/-- An offset data set for a single closed square. -/
def squareOffsetData : OffsetData :=
  ⟨[[(0, 0), (10, 0), (10, 10), (0, 10)]], 2⟩

/-- C9: the declared result of each public clip and offset operation is
optional: when the native execution fails, each operation returns undefined
(none) rather than throwing, here at concrete all-closed inputs. -/
theorem operations_can_return_undefined :
    clipToPaths closedSubjectData .failed = .ok none ∧
      clipToPolyTree closedSubjectData .failed = .ok none ∧
      offsetToPaths squareOffsetData .failed = .ok none ∧
      offsetToPolyTree squareOffsetData .failed = .ok none :=
  ⟨rfl, rfl, rfl, rfl⟩

end Clipper
